import Mathlib

/-!
Verification development for the clockify-slack integration
(`src/lambda_function.py` and `src/main.py`).

The two Python files are shallowly embedded below.  External HTTP traffic is
modelled by an environment (`Env`) that supplies the already-parsed JSON
responses of the three services (the Clockify time-off query, the Slack
`users.lookupByEmail` call, and the Slack `users.profile.set` call); response
bodies are modelled at the structured-JSON level, so a syntactically invalid
JSON body (which would make `response.json()` raise) is outside the model.
Python exceptions that the scripts can raise while processing structured data
(`ValueError` from `datetime.fromisoformat`, `TypeError` from hashing a
`dict`, `KeyError` from a missing JSON key) are modelled with `Except`; the
log side effects that happened before an exception are carried in the error
value.  Python floats are modelled with exact integer arithmetic, so the
(never observable at the inputs used here) rounding of `datetime.timestamp()`
is idealized.
-/

deriving instance DecidableEq for Except

/-- The Python exceptions that the embedded code can raise. -/
inductive PyError where
  | typeError
  | valueError
  | keyError
deriving DecidableEq, Repr

/-- Value of a decimal digit character. -/
def digitVal (c : Char) : Nat := c.toNat - 48

/-- Numeric value of a list of decimal digit characters. -/
def digitsToNat (cs : List Char) : Nat :=
  cs.foldl (fun a c => a * 10 + digitVal c) 0

/-- Consume exactly `n` decimal digits, returning their value and the rest. -/
def takeExactDigits (n : Nat) (cs : List Char) : Option (Nat × List Char) :=
  let pre := cs.take n
  if pre.length = n ∧ pre.all Char.isDigit then
    some (digitsToNat pre, cs.drop n)
  else none

/-- Consume one expected character. -/
def expectChar (c : Char) : List Char → Option (List Char)
  | [] => none
  | d :: cs => if d = c then some cs else none

/-- Gregorian leap-year test (as Python's `calendar`/`datetime` use). -/
def isLeapYear (y : Nat) : Bool :=
  (y % 4 == 0 && y % 100 != 0) || y % 400 == 0

/-- Number of days in a month of the proleptic Gregorian calendar. -/
def daysInMonth (y m : Nat) : Nat :=
  if m = 2 then (if isLeapYear y then 29 else 28)
  else if m = 4 ∨ m = 6 ∨ m = 9 ∨ m = 11 then 30
  else 31

/-- Days from 1970-01-01 to the given Gregorian date (civil-days algorithm,
valid for years 1..9999, which is `datetime`'s range). -/
def daysFromCivil (y m d : Nat) : Int :=
  let y' : Nat := if m ≤ 2 then y - 1 else y
  let era : Nat := y' / 400
  let yoe : Nat := y' - era * 400
  let mp : Nat := (m + 9) % 12
  let doy : Nat := (153 * mp + 2) / 5 + d - 1
  let doe : Nat := yoe * 365 + yoe / 4 - yoe / 100 + doy
  ((era * 146097 + doe : Nat) : Int) - 719468

/-- Model of a Python `datetime.datetime`: calendar fields plus an optional
fixed UTC offset in minutes (`some 0` models `timezone.utc`; `none` models a
naive datetime). -/
structure PyDateTime where
  year : Nat
  month : Nat
  day : Nat
  hour : Nat
  minute : Nat
  second : Nat
  microsecond : Nat
  utcOffsetMinutes : Option Int
deriving DecidableEq, Repr

/-- Model of a Python `datetime.date`. -/
structure PyDate where
  year : Nat
  month : Nat
  day : Nat
deriving DecidableEq, Repr

/-- The `.date()` projection of a datetime. -/
def PyDateTime.date (dt : PyDateTime) : PyDate :=
  ⟨dt.year, dt.month, dt.day⟩

/-- Parse an optional fractional-second part `.d{1,6}`, scaled to
microseconds. -/
def parseFraction (cs : List Char) : Option (Nat × List Char) :=
  match cs with
  | '.' :: rest =>
    let p := rest.span Char.isDigit
    if 1 ≤ p.1.length ∧ p.1.length ≤ 6 then
      some (digitsToNat p.1 * 10 ^ (6 - p.1.length), p.2)
    else none
  | _ => some (0, cs)

/-- Parse a `HH:MM` pair into minutes, validating the field ranges. -/
def parseHHMM (cs : List Char) : Option (Nat × List Char) := do
  let (hh, cs) ← takeExactDigits 2 cs
  let cs ← expectChar ':' cs
  let (mm, cs) ← takeExactDigits 2 cs
  if hh ≤ 23 ∧ mm ≤ 59 then some (hh * 60 + mm, cs) else none

/-- Parse a UTC offset `±HH:MM` into signed minutes. -/
def parseOffset (cs : List Char) : Option (Int × List Char) :=
  match cs with
  | '+' :: rest => (parseHHMM rest).map (fun p => ((p.1 : Int), p.2))
  | '-' :: rest => (parseHHMM rest).map (fun p => (-(p.1 : Int), p.2))
  | _ => none

/-- Parse `YYYY-MM-DDTHH:MM:SS[.ffffff]±HH:MM` with range validation. -/
def parseIsoAware (cs : List Char) : Option PyDateTime := do
  let (y, cs) ← takeExactDigits 4 cs
  let cs ← expectChar '-' cs
  let (mo, cs) ← takeExactDigits 2 cs
  let cs ← expectChar '-' cs
  let (d, cs) ← takeExactDigits 2 cs
  let cs ← expectChar 'T' cs
  let (h, cs) ← takeExactDigits 2 cs
  let cs ← expectChar ':' cs
  let (mi, cs) ← takeExactDigits 2 cs
  let cs ← expectChar ':' cs
  let (sec, cs) ← takeExactDigits 2 cs
  let (micro, cs) ← parseFraction cs
  let (off, cs) ← parseOffset cs
  if cs = [] ∧ 1 ≤ y ∧ y ≤ 9999 ∧ 1 ≤ mo ∧ mo ≤ 12 ∧
     1 ≤ d ∧ d ≤ daysInMonth y mo ∧ h ≤ 23 ∧ mi ≤ 59 ∧ sec ≤ 59 then
    some ⟨y, mo, d, h, mi, sec, micro, some off⟩
  else none

/-- Model of `datetime.fromisoformat`.  The modelled domain is the timestamps
the scripts actually feed it after the `"Z" → "+00:00"` replacement: aware
ISO-8601 strings with a `T` separator, full `HH:MM:SS` time, an optional
fractional part and an explicit `±HH:MM` offset.  Strings outside this domain
are mapped to `ValueError`.  (Naive strings, which Python would accept and
later interpret in the host's local timezone, are outside the model.) -/
def fromisoformat (s : String) : Except PyError PyDateTime :=
  match parseIsoAware s.data with
  | some dt => .ok dt
  | none => .error PyError.valueError

/-- Epoch seconds (integral part) and microseconds of an aware datetime;
`none` for a naive one. -/
def PyDateTime.epochPair (dt : PyDateTime) : Option (Int × Nat) :=
  dt.utcOffsetMinutes.map (fun off =>
    (daysFromCivil dt.year dt.month dt.day * 86400
       + (dt.hour : Int) * 3600 + (dt.minute : Int) * 60 + (dt.second : Int)
       - off * 60,
     dt.microsecond))

/-- Python's `int()` truncation toward zero applied to the real number
`sec + micro / 10^6`. -/
def pyIntOfSecMicro (sec : Int) (micro : Nat) : Int :=
  if micro = 0 then sec else if 0 ≤ sec then sec else sec + 1

/-- Epoch pair of `datetime.fromisoformat(s)` for an aware `s`. -/
def fromisoformatEpochPair (s : String) : Except PyError (Int × Nat) :=
  match fromisoformat s with
  | .error e => .error e
  | .ok dt =>
    match dt.epochPair with
    | some p => .ok p
    | none => .error PyError.valueError

/-- Model of `int(datetime.fromisoformat(s).timestamp())` for an aware `s`. -/
def fromisoformatTimestampInt (s : String) : Except PyError Int :=
  (fromisoformatEpochPair s).map (fun p => pyIntOfSecMicro p.1 p.2)

/-- Fuel-driven replacement of every non-overlapping occurrence of `pat`
(left to right) by `rep`; `fuel` bounds the number of steps and is
instantiated with the input length. -/
def replaceFuel (pat rep : List Char) : Nat → List Char → List Char
  | 0, cs => cs
  | _ + 1, [] => []
  | n + 1, c :: cs =>
    if pat.isPrefixOf (c :: cs) then
      rep ++ replaceFuel pat rep n ((c :: cs).drop pat.length)
    else c :: replaceFuel pat rep n cs

/-- Model of Python's `str.replace` for a non-empty pattern: every
non-overlapping occurrence is replaced, scanning left to right.  (The only
use in the scripts is `end_date.replace("Z", "+00:00")`.) -/
def pyStrReplace (s pat rep : String) : String :=
  if pat = "" then s
  else String.mk (replaceFuel pat.data rep.data s.data.length s.data)

/-- Model of the per-record expiration computation shared by both variants
(`lambda_function.py` line 121, `main.py` lines 126-131):
`int(datetime.fromisoformat(end_date.replace("Z", "+00:00")).timestamp())
if end_date else 0`.  Python truthiness makes both `None` and `""` take the
`else 0` branch. -/
def computeExpiration (end_date : Option String) : Except PyError Int :=
  match end_date with
  | none => .ok 0
  | some s =>
    if s = "" then .ok 0
    else fromisoformatTimestampInt (pyStrReplace s "Z" "+00:00")

/-- Left-pad the decimal form of `n` with zeros to width `w`. -/
def padZeros (w n : Nat) : String :=
  let s := toString n
  String.mk (List.replicate (w - s.length) '0') ++ s

/-- Python's serialization of a fixed UTC offset (`"+00:00"` for UTC). -/
def offsetIso : Option Int → String
  | none => ""
  | some off =>
    (if off < 0 then "-" else "+")
      ++ padZeros 2 (off.natAbs / 60) ++ ":" ++ padZeros 2 (off.natAbs % 60)

/-- Model of `datetime.isoformat()`: the fractional part is printed (with six
digits) only when the microsecond field is nonzero, and an aware datetime gets
its offset appended. -/
def PyDateTime.isoformat (dt : PyDateTime) : String :=
  padZeros 4 dt.year ++ "-" ++ padZeros 2 dt.month ++ "-" ++ padZeros 2 dt.day
    ++ "T" ++ padZeros 2 dt.hour ++ ":" ++ padZeros 2 dt.minute ++ ":"
    ++ padZeros 2 dt.second
    ++ (if dt.microsecond = 0 then "" else "." ++ padZeros 6 dt.microsecond)
    ++ offsetIso dt.utcOffsetMinutes

/-- Model of `datetime.min.time()`: `(hour, minute, second, microsecond)`. -/
def datetimeMinTime : Nat × Nat × Nat × Nat := (0, 0, 0, 0)

/-- Model of `datetime.max.time()`. -/
def datetimeMaxTime : Nat × Nat × Nat × Nat := (23, 59, 59, 999999)

/-- Model of `datetime.combine(date, time, timezone.utc)`. -/
def datetimeCombineUtc (d : PyDate) (t : Nat × Nat × Nat × Nat) : PyDateTime :=
  ⟨d.year, d.month, d.day, t.1, t.2.1, t.2.2.1, t.2.2.2, some 0⟩

/-- Model of `datetime.replace(microsecond=...)`. -/
def PyDateTime.replaceMicrosecond (dt : PyDateTime) (micro : Nat) : PyDateTime :=
  { dt with microsecond := micro }

/-- `START_DATE` of the query window (`main.py` line 21, `lambda_function.py`
line 53): `datetime.combine(today, datetime.min.time(), timezone.utc)
.isoformat()`. -/
def START_DATE (today : PyDate) : String :=
  (datetimeCombineUtc today datetimeMinTime).isoformat

/-- `END_DATE` of the query window (`main.py` line 22, `lambda_function.py`
line 54): `datetime.combine(today, datetime.max.time(), timezone.utc)
.replace(microsecond=999999).isoformat()`. -/
def END_DATE (today : PyDate) : String :=
  ((datetimeCombineUtc today datetimeMaxTime).replaceMicrosecond 999999).isoformat

/-- The JSON payload of the Clockify time-off query. -/
structure TimeOffPayload where
  start : String
  «end» : String
  statuses : List String
  userGroups : List String
  users : List String
deriving DecidableEq, Repr

/-- The payload both variants send to the time-off endpoint (`main.py` lines
25-31, `lambda_function.py` lines 56-62). -/
def timeOffQueryPayload (today : PyDate) : TimeOffPayload :=
  ⟨START_DATE today, END_DATE today, ["APPROVED"], ["63ceed2d4464230f61549c02"], []⟩

/-- Policy value of a normalized record.  `req.get("policyName", {})` yields
the JSON string when the field is present and the *empty dict* `{}` when it is
absent, so the normalized `policy_name` is either a string or an empty dict. -/
inductive PolicyVal where
  | str (s : String)
  | emptyDict
deriving DecidableEq, Repr

/-- The `period` object of a Clockify request: `{start, end}`. -/
structure RawPeriod where
  start : Option String
  «end» : Option String
deriving DecidableEq, Repr

/-- The `timeOffPeriod` object of a Clockify request. -/
structure RawTimeOffPeriod where
  period : Option RawPeriod
deriving DecidableEq, Repr

/-- The `status` object of a Clockify request. -/
structure RawStatus where
  statusType : Option String
deriving DecidableEq, Repr

/-- One request object of the Clockify response body, at the JSON keys the
scripts read.  A field is `none` when the key is absent. -/
structure RawRequest where
  userEmail : Option String
  userName : Option String
  timeOffPeriod : Option RawTimeOffPeriod
  status : Option RawStatus
  policyName : Option String
deriving DecidableEq, Repr

/-- `req.get("timeOffPeriod", {}).get("period", {}).get("start")`. -/
def periodStartOf (req : RawRequest) : Option String :=
  match req.timeOffPeriod with
  | none => none
  | some t =>
    match t.period with
    | none => none
    | some p => p.start

/-- `req.get("timeOffPeriod", {}).get("period", {}).get("end")`. -/
def periodEndOf (req : RawRequest) : Option String :=
  match req.timeOffPeriod with
  | none => none
  | some t =>
    match t.period with
    | none => none
    | some p => p.«end»

/-- `req.get("status", {}).get("statusType")` (read by `main.py` only). -/
def statusTypeOf (req : RawRequest) : Option String :=
  match req.status with
  | none => none
  | some st => st.statusType

/-- `req.get("policyName", {})`. -/
def policyNameOf (req : RawRequest) : PolicyVal :=
  match req.policyName with
  | some s => PolicyVal.str s
  | none => PolicyVal.emptyDict

/-- `STATUS_MAP` (identical in both files): policy name to
`(status text, status emoji)`. -/
def STATUS_MAP : List (String × String × String) :=
  [("Vacations", "On Holiday", ":palm_tree:"),
   ("Sick", "Off Sick", ":face_with_thermometer:")]

/-- Dictionary lookup `STATUS_MAP[p]` / membership test for a string key. -/
def statusMapGet (p : String) : Option (String × String) :=
  (STATUS_MAP.find? (fun e => e.1 == p)).map (fun e => e.2)

/-- Slack's `user` object (`{id}`). -/
structure SlackUser where
  id : String
deriving DecidableEq, Repr

/-- Parsed JSON body of a `users.lookupByEmail` response. -/
structure SlackLookupResponse where
  ok : Bool
  user : Option SlackUser
  error : Option String
deriving DecidableEq, Repr

/-- HTTP status and parsed `ok` field of a `users.profile.set` response. -/
structure SlackPostResponse where
  status_code : Nat
  ok : Bool
deriving DecidableEq, Repr

/-- HTTP status and parsed body of the Clockify time-off response.
`requests` is `data.get("requests", [])`: an absent key is the empty list. -/
structure FetchResponse where
  status_code : Nat
  requests : List RawRequest
deriving DecidableEq, Repr

/-- One `users.profile.set` call: the fields of its JSON payload. -/
structure UpdateCall where
  user : String
  status_text : String
  status_emoji : String
  status_expiration : Int
deriving DecidableEq, Repr

/-- A warning-level log record emitted during a run. -/
inductive Warning where
  | lookupFailed (email : Option String)
  | skipNoUserId (email : Option String)
  | unknownPolicy (email : Option String) (policy : String)
deriving DecidableEq, Repr

/-- The observable side effects of (part of) a run: the lookup calls issued
(by email), the status-update calls issued, the warnings logged, and the
number of error-level log records from failed status updates. -/
structure RunLog where
  lookups : List (Option String)
  updates : List UpdateCall
  warnings : List Warning
  errors : Nat
deriving DecidableEq, Repr

/-- The empty log. -/
def RunLog.empty : RunLog := ⟨[], [], [], 0⟩

/-- Concatenation of logs. -/
def RunLog.append (a b : RunLog) : RunLog :=
  ⟨a.lookups ++ b.lookups, a.updates ++ b.updates,
   a.warnings ++ b.warnings, a.errors + b.errors⟩

/-- The environment of one invocation: the responses the external services
return (already parsed from JSON).  The Slack lookup response is a function
of the email sent; the profile-set response is a function of the payload
sent. -/
structure Env where
  clockify : FetchResponse
  slackLookup : Option String → SlackLookupResponse
  slackPost : UpdateCall → SlackPostResponse

/-- `get_slack_user_id` (identical logic in both files, differing only in log
formatting): returns `data["user"]["id"]` when the response has `ok` true
(raising `KeyError` if the `user` object is absent), and returns `None` after
logging one warning naming the email when `ok` is false.  The warnings it
logs are returned alongside the result. -/
def get_slack_user_id (env : Env) (email : Option String) :
    Except PyError (Option String × List Warning) :=
  let data := env.slackLookup email
  if data.ok then
    match data.user with
    | some u => .ok (some u.id, [])
    | none => .error PyError.keyError
  else
    .ok (none, [Warning.lookupFailed email])

/-- `set_user_status` (identical in both files): issues the profile-set call
and logs success or an error depending on the response; it returns nothing,
so the model yields the number of error-level records it logged (`1` unless
the response has HTTP 200 and `ok` true). -/
def set_user_status (env : Env) (call : UpdateCall) : Nat :=
  let response := env.slackPost call
  if response.status_code = 200 ∧ response.ok then 0 else 1

/-- Propagate a prefix of side effects through the rest of a run. -/
def prependLog (l : RunLog) :
    Except (RunLog × PyError) RunLog → Except (RunLog × PyError) RunLog
  | .ok l2 => .ok (l.append l2)
  | .error (l2, e) => .error (l.append l2, e)

namespace LambdaFunction

/-- Normalized record built by `lambda_function.py`'s `get_time_off_requests`
(lines 69-78). -/
structure TimeOffRecord where
  email : Option String
  name : Option String
  start : Option String
  «end» : Option String
  policy_name : PolicyVal
deriving DecidableEq, Repr

/-- The projection of one request object into a normalized record
(`lambda_function.py` lines 70-76). -/
def recordOfRequest (req : RawRequest) : TimeOffRecord :=
  ⟨req.userEmail, req.userName, periodStartOf req, periodEndOf req,
   policyNameOf req⟩

/-- `get_time_off_requests` (`lambda_function.py` lines 48-81): on HTTP 200
the request objects are projected, in response order; otherwise the error is
logged and the empty list returned. -/
def get_time_off_requests (response : FetchResponse) : List TimeOffRecord :=
  if response.status_code = 200 then response.requests.map recordOfRequest
  else []

/-- One iteration of the loop of `update_slack_status_for_time_off_users`
(`lambda_function.py` lines 117-130).  The expiration is computed first (line
121, possibly raising `ValueError`); then `policy_name in STATUS_MAP` hashes
the policy value (raising `TypeError` when it is the empty dict); an unknown
string policy is skipped with no log; a known policy triggers the lookup, and
the update is issued only when the returned user id is truthy (not `None` and
not empty), with a second warning logged otherwise. -/
def processRecord (env : Env) (r : TimeOffRecord) :
    Except (RunLog × PyError) RunLog :=
  match computeExpiration r.«end» with
  | .error e => .error (RunLog.empty, e)
  | .ok expiration_time =>
    match r.policy_name with
    | .emptyDict => .error (RunLog.empty, PyError.typeError)
    | .str policy =>
      match statusMapGet policy with
      | none => .ok RunLog.empty
      | some (text, emoji) =>
        match get_slack_user_id env r.email with
        | .error e => .error (⟨[r.email], [], [], 0⟩, e)
        | .ok (slack_user_id, ws) =>
          match slack_user_id with
          | some uid =>
            if uid = "" then
              .ok ⟨[r.email], [], ws ++ [Warning.skipNoUserId r.email], 0⟩
            else
              let call : UpdateCall := ⟨uid, text, emoji, expiration_time⟩
              .ok ⟨[r.email], [call], ws, set_user_status env call⟩
          | none =>
            .ok ⟨[r.email], [], ws ++ [Warning.skipNoUserId r.email], 0⟩

/-- The loop of `update_slack_status_for_time_off_users`: records are
processed in order; an uncaught exception aborts the loop, keeping the side
effects already produced. -/
def runRecords (env : Env) : List TimeOffRecord → Except (RunLog × PyError) RunLog
  | [] => .ok RunLog.empty
  | r :: rs =>
    match processRecord env r with
    | .error (l, e) => .error (l, e)
    | .ok l => prependLog l (runRecords env rs)

/-- `update_slack_status_for_time_off_users` (`lambda_function.py` lines
110-130). -/
def update_slack_status_for_time_off_users (env : Env) :
    Except (RunLog × PyError) RunLog :=
  runRecords env (get_time_off_requests env.clockify)

/-- The completion envelope returned to the invoking platform. -/
structure LambdaResponse where
  statusCode : Nat
  body : String
deriving DecidableEq, Repr

/-- `lambda_handler` (`lambda_function.py` lines 132-139): runs the job and
returns the fixed envelope; an exception raised by the job propagates. -/
def lambda_handler (env : Env) : Except (RunLog × PyError) LambdaResponse :=
  match update_slack_status_for_time_off_users env with
  | .ok _ => .ok ⟨200, "Lambda function completed successfully!"⟩
  | .error p => .error p

end LambdaFunction

namespace MainScript

/-- Normalized record built by `main.py`'s `get_time_off_requests` (lines
55-65); it additionally carries the request's `status.statusType`. -/
structure TimeOffRecord where
  email : Option String
  name : Option String
  start : Option String
  «end» : Option String
  status : Option String
  policy_name : PolicyVal
deriving DecidableEq, Repr

/-- The projection of one request object into a normalized record
(`main.py` lines 56-63). -/
def recordOfRequest (req : RawRequest) : TimeOffRecord :=
  ⟨req.userEmail, req.userName, periodStartOf req, periodEndOf req,
   statusTypeOf req, policyNameOf req⟩

/-- `get_time_off_requests` (`main.py` lines 39-68).  The early `return []`
for an empty `requests` list (lines 51-53) produces the same value as mapping
over the empty list, so both branches are one expression here. -/
def get_time_off_requests (response : FetchResponse) : List TimeOffRecord :=
  if response.status_code = 200 then response.requests.map recordOfRequest
  else []

/-- One iteration of the loop of `update_slack_status_for_time_off_users`
(`main.py` lines 121-143).  The expiration is computed first (lines 126-131);
`policy_name in STATUS_MAP` hashes the policy value (raising `TypeError` on
the empty dict); an unknown string policy logs one warning and continues; a
known policy triggers the lookup, and a falsy user id (None or empty) skips
the update silently (the `if slack_user_id:` at line 142 has no `else`). -/
def processRecord (env : Env) (r : TimeOffRecord) :
    Except (RunLog × PyError) RunLog :=
  match computeExpiration r.«end» with
  | .error e => .error (RunLog.empty, e)
  | .ok expiration_time =>
    match r.policy_name with
    | .emptyDict => .error (RunLog.empty, PyError.typeError)
    | .str policy =>
      match statusMapGet policy with
      | none => .ok ⟨[], [], [Warning.unknownPolicy r.email policy], 0⟩
      | some (text, emoji) =>
        match get_slack_user_id env r.email with
        | .error e => .error (⟨[r.email], [], [], 0⟩, e)
        | .ok (slack_user_id, ws) =>
          match slack_user_id with
          | some uid =>
            if uid = "" then
              .ok ⟨[r.email], [], ws, 0⟩
            else
              let call : UpdateCall := ⟨uid, text, emoji, expiration_time⟩
              .ok ⟨[r.email], [call], ws, set_user_status env call⟩
          | none => .ok ⟨[r.email], [], ws, 0⟩

/-- The loop of `update_slack_status_for_time_off_users` (`main.py` lines
121-143). -/
def runRecords (env : Env) : List TimeOffRecord → Except (RunLog × PyError) RunLog
  | [] => .ok RunLog.empty
  | r :: rs =>
    match processRecord env r with
    | .error (l, e) => .error (l, e)
    | .ok l => prependLog l (runRecords env rs)

/-- `update_slack_status_for_time_off_users` (`main.py` lines 111-143).  The
early `return` for an empty record list (lines 115-117) produces the same
result as the loop over the empty list. -/
def update_slack_status_for_time_off_users (env : Env) :
    Except (RunLog × PyError) RunLog :=
  runRecords env (get_time_off_requests env.clockify)

end MainScript

/-- A policy value is a key of `STATUS_MAP`: it is a string with a table
entry. -/
def policyKnown : PolicyVal → Prop :=
  fun p => ∃ s, p = PolicyVal.str s ∧ (statusMapGet s).isSome = true

/-- An email resolves to a chat user id, in the sense the scripts act on: the
lookup response has `ok` true and carries a user whose id is truthy
(non-empty), which is exactly the `if slack_user_id:` test. -/
def emailResolves (env : Env) (email : Option String) : Prop :=
  (env.slackLookup email).ok = true ∧
  ∃ u, (env.slackLookup email).user = some u ∧ u.id ≠ ""

/-- Well-formedness of the per-record data a run receives: every fetched
request object has a `policyName` key, its end timestamp (when present and
non-empty) parses, and a lookup response with `ok` true carries a `user`
object.  These are exactly the conditions under which no per-record step
raises. -/
def wellFormedUpstream (env : Env) : Prop :=
  ∀ req ∈ env.clockify.requests,
    req.policyName.isSome = true ∧
    (∃ t, computeExpiration (periodEndOf req) = .ok t) ∧
    ((env.slackLookup req.userEmail).ok = true →
      (env.slackLookup req.userEmail).user.isSome = true)

/-- An environment whose lookup always resolves to user id `U123` and whose
profile-set endpoint always acknowledges. -/
def envResolved : Env :=
  ⟨⟨200, []⟩, fun _ => ⟨true, some ⟨"U123"⟩, none⟩, fun _ => ⟨200, true⟩⟩

/-- An environment whose lookup always fails (`ok` false). -/
def envLookupFail : Env :=
  ⟨⟨200, []⟩, fun _ => ⟨false, none, some "users_not_found"⟩, fun _ => ⟨200, true⟩⟩

/-- An environment whose fetch fails with HTTP 500. -/
def env500 : Env :=
  ⟨⟨500, []⟩, fun _ => ⟨false, none, none⟩, fun _ => ⟨200, true⟩⟩

/-- A normalized record with a known policy (lambda variant shape). -/
def lfVacRecord : LambdaFunction.TimeOffRecord :=
  ⟨some "ada@example.com", some "Ada", none, none, PolicyVal.str "Vacations"⟩

/-- A normalized record with a known policy (main variant shape). -/
def msVacRecord : MainScript.TimeOffRecord :=
  ⟨some "ada@example.com", some "Ada", none, none, none, PolicyVal.str "Vacations"⟩

/-- The side effects of processing `lfVacRecord` under `envResolved`. -/
def lfVacLog : RunLog :=
  ⟨[some "ada@example.com"], [⟨"U123", "On Holiday", ":palm_tree:", 0⟩], [], 0⟩

/-- A normalized record whose policy string is not a key of `STATUS_MAP`
(lambda variant shape). -/
def lfUnknownRecord : LambdaFunction.TimeOffRecord :=
  ⟨some "bob@example.com", some "Bob", none, none, PolicyVal.str "Parental"⟩

/-- Same unknown-policy record, main variant shape. -/
def msUnknownRecord : MainScript.TimeOffRecord :=
  ⟨some "bob@example.com", some "Bob", none, none, none, PolicyVal.str "Parental"⟩

/-- A fetched request object with an unknown policy name. -/
def reqUnknown : RawRequest :=
  ⟨some "bob@example.com", some "Bob",
   some ⟨some ⟨some "2025-06-02T00:00:00Z", none⟩⟩, none, some "Parental"⟩

/-- An environment whose fetch returns one unknown-policy request. -/
def envUnknown : Env :=
  ⟨⟨200, [reqUnknown]⟩, fun _ => ⟨true, some ⟨"U9"⟩, none⟩, fun _ => ⟨200, true⟩⟩

/-- A fetched request object with a known policy and a resolvable email,
whose leave period ends at 2025-06-02T23:59:59.999999Z. -/
def reqVac : RawRequest :=
  ⟨some "ada@example.com", some "Ada",
   some ⟨some ⟨some "2025-06-02T00:00:00Z", some "2025-06-02T23:59:59.999999Z"⟩⟩,
   none, some "Vacations"⟩

/-- An environment with one well-formed approved request. -/
def envVac : Env :=
  ⟨⟨200, [reqVac]⟩, fun _ => ⟨true, some ⟨"U123"⟩, none⟩, fun _ => ⟨200, true⟩⟩

/-- A fetched request object whose end timestamp is not a valid ISO-8601
string. -/
def reqBadEnd : RawRequest :=
  ⟨some "eve@example.com", some "Eve",
   some ⟨some ⟨some "2025-06-02T00:00:00Z", some "not-a-timestamp"⟩⟩, none,
   some "Vacations"⟩

/-- An environment whose fetch returns the malformed-end-date request. -/
def envBadEnd : Env :=
  ⟨⟨200, [reqBadEnd]⟩, fun _ => ⟨true, some ⟨"U7"⟩, none⟩, fun _ => ⟨200, true⟩⟩

/-- A fetched request object with no `policyName` key at all. -/
def reqNoPolicy : RawRequest :=
  ⟨some "noa@example.com", some "Noa",
   some ⟨some ⟨some "2025-06-02T00:00:00Z", none⟩⟩, none, none⟩

/-- An environment whose fetch returns the request without a `policyName`. -/
def envNoPolicy : Env :=
  ⟨⟨200, [reqNoPolicy]⟩, fun _ => ⟨true, some ⟨"U5"⟩, none⟩, fun _ => ⟨200, true⟩⟩

/-- The current UTC instant of the claim's example: 2025-06-02T10:00:00Z. -/
def nowExample : PyDateTime := ⟨2025, 6, 2, 10, 0, 0, 0, some 0⟩

/-- A 200 fetch response with one request whose end date is absent. -/
def respOneOpenEnd : FetchResponse :=
  ⟨200, [⟨some "noa@example.com", some "Noa",
          some ⟨some ⟨some "2025-06-02T00:00:00Z", none⟩⟩,
          some ⟨some "APPROVED"⟩, some "Sick"⟩]⟩

theorem lfProcessRecord_char (env : Env) (r : LambdaFunction.TimeOffRecord)
    (log : RunLog) (h : LambdaFunction.processRecord env r = .ok log) :
    log.updates.length ≤ 1 ∧
    (log.updates.length = 1 ↔ policyKnown r.policy_name ∧ emailResolves env r.email) ∧
    ∀ u ∈ log.updates, ∃ s text emoji, r.policy_name = PolicyVal.str s ∧
      statusMapGet s = some (text, emoji) ∧
      u.status_text = text ∧ u.status_emoji = emoji := by
  cases hexp : computeExpiration r.«end» with
  | error e => simp [LambdaFunction.processRecord, hexp] at h
  | ok exp =>
    cases hpol : r.policy_name with
    | emptyDict => simp [LambdaFunction.processRecord, hexp, hpol] at h
    | str s =>
      cases hmap : statusMapGet s with
      | none =>
        simp [LambdaFunction.processRecord, hexp, hpol, hmap] at h
        subst h
        refine ⟨by simp [RunLog.empty], ?_, by simp [RunLog.empty]⟩
        simp only [RunLog.empty, List.length_nil]
        constructor
        · omega
        · rintro ⟨⟨s', hps, hsome⟩, -⟩
          injection hps with hss
          subst hss
          rw [hmap] at hsome
          simp at hsome
      | some te =>
        obtain ⟨text, emoji⟩ := te
        cases hok : (env.slackLookup r.email).ok with
        | false =>
          simp [LambdaFunction.processRecord, hexp, hpol, hmap,
                get_slack_user_id, hok] at h
          subst h
          refine ⟨by simp, ?_, by simp⟩
          simp only [List.length_nil]
          constructor
          · omega
          · rintro ⟨-, hres, -⟩
            rw [hok] at hres
            cases hres
        | true =>
          cases huser : (env.slackLookup r.email).user with
          | none =>
            simp [LambdaFunction.processRecord, hexp, hpol, hmap,
                  get_slack_user_id, hok, huser] at h
          | some u =>
            by_cases hid : u.id = ""
            · simp [LambdaFunction.processRecord, hexp, hpol, hmap,
                    get_slack_user_id, hok, huser, hid] at h
              subst h
              refine ⟨by simp, ?_, by simp⟩
              simp only [List.length_nil]
              constructor
              · omega
              · rintro ⟨-, -, u', hu', hne⟩
                rw [huser] at hu'
                injection hu' with huu
                subst huu
                exact absurd hid hne
            · simp [LambdaFunction.processRecord, hexp, hpol, hmap,
                    get_slack_user_id, hok, huser, hid] at h
              subst h
              refine ⟨by simp, ?_, ?_⟩
              · constructor
                · intro _
                  exact ⟨⟨s, rfl, by rw [hmap]; rfl⟩, hok, u, huser, hid⟩
                · intro _
                  simp
              · intro u2 hu2
                simp at hu2
                subst hu2
                exact ⟨s, text, emoji, rfl, hmap, rfl, rfl⟩

theorem msProcessRecord_char (env : Env) (r : MainScript.TimeOffRecord)
    (log : RunLog) (h : MainScript.processRecord env r = .ok log) :
    log.updates.length ≤ 1 ∧
    (log.updates.length = 1 ↔ policyKnown r.policy_name ∧ emailResolves env r.email) ∧
    ∀ u ∈ log.updates, ∃ s text emoji, r.policy_name = PolicyVal.str s ∧
      statusMapGet s = some (text, emoji) ∧
      u.status_text = text ∧ u.status_emoji = emoji := by
  cases hexp : computeExpiration r.«end» with
  | error e => simp [MainScript.processRecord, hexp] at h
  | ok exp =>
    cases hpol : r.policy_name with
    | emptyDict => simp [MainScript.processRecord, hexp, hpol] at h
    | str s =>
      cases hmap : statusMapGet s with
      | none =>
        simp [MainScript.processRecord, hexp, hpol, hmap] at h
        subst h
        refine ⟨by simp, ?_, by simp⟩
        simp only [List.length_nil]
        constructor
        · omega
        · rintro ⟨⟨s', hps, hsome⟩, -⟩
          injection hps with hss
          subst hss
          rw [hmap] at hsome
          simp at hsome
      | some te =>
        obtain ⟨text, emoji⟩ := te
        cases hok : (env.slackLookup r.email).ok with
        | false =>
          simp [MainScript.processRecord, hexp, hpol, hmap,
                get_slack_user_id, hok] at h
          subst h
          refine ⟨by simp, ?_, by simp⟩
          simp only [List.length_nil]
          constructor
          · omega
          · rintro ⟨-, hres, -⟩
            rw [hok] at hres
            cases hres
        | true =>
          cases huser : (env.slackLookup r.email).user with
          | none =>
            simp [MainScript.processRecord, hexp, hpol, hmap,
                  get_slack_user_id, hok, huser] at h
          | some u =>
            by_cases hid : u.id = ""
            · simp [MainScript.processRecord, hexp, hpol, hmap,
                    get_slack_user_id, hok, huser, hid] at h
              subst h
              refine ⟨by simp, ?_, by simp⟩
              simp only [List.length_nil]
              constructor
              · omega
              · rintro ⟨-, -, u', hu', hne⟩
                rw [huser] at hu'
                injection hu' with huu
                subst huu
                exact absurd hid hne
            · simp [MainScript.processRecord, hexp, hpol, hmap,
                    get_slack_user_id, hok, huser, hid] at h
              subst h
              refine ⟨by simp, ?_, ?_⟩
              · constructor
                · intro _
                  exact ⟨⟨s, rfl, by rw [hmap]; rfl⟩, hok, u, huser, hid⟩
                · intro _
                  simp
              · intro u2 hu2
                simp at hu2
                subst hu2
                exact ⟨s, text, emoji, rfl, hmap, rfl, rfl⟩

theorem runLogEmpty_append (l : RunLog) : RunLog.empty.append l = l := by
  cases l
  simp [RunLog.append, RunLog.empty]

theorem prependLog_empty (x : Except (RunLog × PyError) RunLog) :
    prependLog RunLog.empty x = x := by
  cases x with
  | ok l => simp [prependLog, runLogEmpty_append]
  | error p =>
    obtain ⟨l, e⟩ := p
    simp [prependLog, runLogEmpty_append]

theorem lfProcessRecord_ok (env : Env) (r : LambdaFunction.TimeOffRecord)
    (h1 : ∃ s, r.policy_name = PolicyVal.str s)
    (h2 : ∃ t, computeExpiration r.«end» = .ok t)
    (h3 : (env.slackLookup r.email).ok = true →
      (env.slackLookup r.email).user.isSome = true) :
    ∃ log, LambdaFunction.processRecord env r = .ok log := by
  cases hres : LambdaFunction.processRecord env r with
  | ok log => exact ⟨log, rfl⟩
  | error p =>
    exfalso
    obtain ⟨s, hs⟩ := h1
    obtain ⟨t, ht⟩ := h2
    cases hmap : statusMapGet s with
    | none => simp [LambdaFunction.processRecord, ht, hs, hmap] at hres
    | some te =>
      obtain ⟨text, emoji⟩ := te
      cases hok : (env.slackLookup r.email).ok with
      | false =>
        simp [LambdaFunction.processRecord, ht, hs, hmap,
              get_slack_user_id, hok] at hres
      | true =>
        obtain ⟨u, hu⟩ := Option.isSome_iff_exists.mp (h3 hok)
        by_cases hid : u.id = "" <;>
          simp [LambdaFunction.processRecord, ht, hs, hmap,
                get_slack_user_id, hok, hu, hid] at hres

theorem msProcessRecord_ok (env : Env) (r : MainScript.TimeOffRecord)
    (h1 : ∃ s, r.policy_name = PolicyVal.str s)
    (h2 : ∃ t, computeExpiration r.«end» = .ok t)
    (h3 : (env.slackLookup r.email).ok = true →
      (env.slackLookup r.email).user.isSome = true) :
    ∃ log, MainScript.processRecord env r = .ok log := by
  cases hres : MainScript.processRecord env r with
  | ok log => exact ⟨log, rfl⟩
  | error p =>
    exfalso
    obtain ⟨s, hs⟩ := h1
    obtain ⟨t, ht⟩ := h2
    cases hmap : statusMapGet s with
    | none => simp [MainScript.processRecord, ht, hs, hmap] at hres
    | some te =>
      obtain ⟨text, emoji⟩ := te
      cases hok : (env.slackLookup r.email).ok with
      | false =>
        simp [MainScript.processRecord, ht, hs, hmap,
              get_slack_user_id, hok] at hres
      | true =>
        obtain ⟨u, hu⟩ := Option.isSome_iff_exists.mp (h3 hok)
        by_cases hid : u.id = "" <;>
          simp [MainScript.processRecord, ht, hs, hmap,
                get_slack_user_id, hok, hu, hid] at hres

theorem lfRunRecords_ok (env : Env) (reqs : List RawRequest)
    (h : ∀ req ∈ reqs,
      req.policyName.isSome = true ∧
      (∃ t, computeExpiration (periodEndOf req) = .ok t) ∧
      ((env.slackLookup req.userEmail).ok = true →
        (env.slackLookup req.userEmail).user.isSome = true)) :
    ∃ log, LambdaFunction.runRecords env
      (reqs.map LambdaFunction.recordOfRequest) = .ok log := by
  induction reqs with
  | nil => exact ⟨RunLog.empty, rfl⟩
  | cons req rest ih =>
    obtain ⟨hp, he, hl⟩ := h req (by simp)
    obtain ⟨s, hs⟩ := Option.isSome_iff_exists.mp hp
    obtain ⟨log1, h1⟩ := lfProcessRecord_ok env (LambdaFunction.recordOfRequest req)
      ⟨s, by simp [LambdaFunction.recordOfRequest, policyNameOf, hs]⟩ he hl
    obtain ⟨log2, h2⟩ := ih (fun q hq => h q (by simp [hq]))
    refine ⟨log1.append log2, ?_⟩
    simp [LambdaFunction.runRecords, h1, h2, prependLog]

theorem msRunRecords_ok (env : Env) (reqs : List RawRequest)
    (h : ∀ req ∈ reqs,
      req.policyName.isSome = true ∧
      (∃ t, computeExpiration (periodEndOf req) = .ok t) ∧
      ((env.slackLookup req.userEmail).ok = true →
        (env.slackLookup req.userEmail).user.isSome = true)) :
    ∃ log, MainScript.runRecords env
      (reqs.map MainScript.recordOfRequest) = .ok log := by
  induction reqs with
  | nil => exact ⟨RunLog.empty, rfl⟩
  | cons req rest ih =>
    obtain ⟨hp, he, hl⟩ := h req (by simp)
    obtain ⟨s, hs⟩ := Option.isSome_iff_exists.mp hp
    obtain ⟨log1, h1⟩ := msProcessRecord_ok env (MainScript.recordOfRequest req)
      ⟨s, by simp [MainScript.recordOfRequest, policyNameOf, hs]⟩ he hl
    obtain ⟨log2, h2⟩ := ih (fun q hq => h q (by simp [hq]))
    refine ⟨log1.append log2, ?_⟩
    simp [MainScript.runRecords, h1, h2, prependLog]

/-- C1: for every fetched time-off record processed by
`update_slack_status_for_time_off_users` (in either variant) whose processing
completes, exactly one `set_user_status` call is issued if and only if the
record's `policy_name` is a key of `STATUS_MAP` and its email resolves to a
chat user id; otherwise zero update calls are issued; never more than one;
and the update's text and emoji equal the table entry for that policy. -/
theorem c1_exactly_one_update_iff :
    (∀ (env : Env) (r : LambdaFunction.TimeOffRecord) (log : RunLog),
      LambdaFunction.processRecord env r = .ok log →
      log.updates.length ≤ 1 ∧
      (log.updates.length = 1 ↔
        policyKnown r.policy_name ∧ emailResolves env r.email) ∧
      ∀ u ∈ log.updates, ∃ s text emoji, r.policy_name = PolicyVal.str s ∧
        statusMapGet s = some (text, emoji) ∧
        u.status_text = text ∧ u.status_emoji = emoji) ∧
    (∀ (env : Env) (r : MainScript.TimeOffRecord) (log : RunLog),
      MainScript.processRecord env r = .ok log →
      log.updates.length ≤ 1 ∧
      (log.updates.length = 1 ↔
        policyKnown r.policy_name ∧ emailResolves env r.email) ∧
      ∀ u ∈ log.updates, ∃ s text emoji, r.policy_name = PolicyVal.str s ∧
        statusMapGet s = some (text, emoji) ∧
        u.status_text = text ∧ u.status_emoji = emoji) :=
  ⟨lfProcessRecord_char, msProcessRecord_char⟩

/-- Witness for C1 at a concrete record and environment. -/
theorem c1_exactly_one_update_iff_witness :
    LambdaFunction.processRecord envResolved lfVacRecord = .ok lfVacLog ∧
    (lfVacLog.updates.length ≤ 1 ∧
     (lfVacLog.updates.length = 1 ↔
       policyKnown lfVacRecord.policy_name ∧
       emailResolves envResolved lfVacRecord.email) ∧
     ∀ u ∈ lfVacLog.updates, ∃ s text emoji,
       lfVacRecord.policy_name = PolicyVal.str s ∧
       statusMapGet s = some (text, emoji) ∧
       u.status_text = text ∧ u.status_emoji = emoji) :=
  ⟨rfl, c1_exactly_one_update_iff.1 envResolved lfVacRecord lfVacLog rfl⟩

/-- C5: for a record whose end timestamp is `2025-06-02T23:59:59.999999Z`,
the computed expiration is the Unix epoch seconds of that UTC instant
(1748908799, the sub-second part truncated by `int`); for an absent (`None`
or empty) end timestamp it is 0. -/
theorem c5_expiration_computation :
    computeExpiration (some "2025-06-02T23:59:59.999999Z") = .ok 1748908799 ∧
    (1748908799 : Int) =
      daysFromCivil 2025 6 2 * 86400 + (23 * 3600 + 59 * 60 + 59) ∧
    computeExpiration none = .ok 0 ∧
    computeExpiration (some "") = .ok 0 :=
  ⟨by decide, by decide, rfl, rfl⟩

/-- C7: whenever the time-off service answers with a non-200 status,
`get_time_off_requests` returns the empty list in both variants, and the
whole run issues zero lookup calls and zero update calls (its log is the
empty log) and still completes. -/
theorem c7_non200_noop (env : Env) (h : env.clockify.status_code ≠ 200) :
    LambdaFunction.get_time_off_requests env.clockify = [] ∧
    MainScript.get_time_off_requests env.clockify = [] ∧
    LambdaFunction.update_slack_status_for_time_off_users env =
      .ok RunLog.empty ∧
    MainScript.update_slack_status_for_time_off_users env = .ok RunLog.empty ∧
    RunLog.empty.lookups = [] ∧ RunLog.empty.updates = [] := by
  have h1 : LambdaFunction.get_time_off_requests env.clockify = [] := by
    simp [LambdaFunction.get_time_off_requests, h]
  have h2 : MainScript.get_time_off_requests env.clockify = [] := by
    simp [MainScript.get_time_off_requests, h]
  refine ⟨h1, h2, ?_, ?_, rfl, rfl⟩
  · simp [LambdaFunction.update_slack_status_for_time_off_users, h1,
          LambdaFunction.runRecords]
  · simp [MainScript.update_slack_status_for_time_off_users, h2,
          MainScript.runRecords]

/-- Witness for C7 at a concrete HTTP-500 environment. -/
theorem c7_non200_noop_witness :
    LambdaFunction.get_time_off_requests env500.clockify = [] ∧
    MainScript.get_time_off_requests env500.clockify = [] ∧
    LambdaFunction.update_slack_status_for_time_off_users env500 =
      .ok RunLog.empty ∧
    MainScript.update_slack_status_for_time_off_users env500 = .ok RunLog.empty ∧
    RunLog.empty.lookups = [] ∧ RunLog.empty.updates = [] :=
  c7_non200_noop env500 (by decide)

/-- C9: `get_slack_user_id` returns the response's `user.id` when the chat
service reports `ok` true (and the user object is present), and returns
`None` — with exactly one warning naming the email and without raising —
when the service reports `ok` false. -/
theorem c9_lookup_contract :
    (∀ (env : Env) (email : Option String) (u : SlackUser),
      (env.slackLookup email).ok = true →
      (env.slackLookup email).user = some u →
      get_slack_user_id env email = .ok (some u.id, [])) ∧
    (∀ (env : Env) (email : Option String),
      (env.slackLookup email).ok = false →
      get_slack_user_id env email = .ok (none, [Warning.lookupFailed email])) := by
  constructor
  · intro env email u hok huser
    simp [get_slack_user_id, hok, huser]
  · intro env email hok
    simp [get_slack_user_id, hok]

/-- Witness for C9 at concrete environments. -/
theorem c9_lookup_contract_witness :
    get_slack_user_id envResolved (some "ada@example.com") =
      .ok (some "U123", []) ∧
    get_slack_user_id envLookupFail (some "ada@example.com") =
      .ok (none, [Warning.lookupFailed (some "ada@example.com")]) :=
  ⟨c9_lookup_contract.1 envResolved (some "ada@example.com") ⟨"U123"⟩ rfl rfl,
   c9_lookup_contract.2 envLookupFail (some "ada@example.com") rfl⟩

/-- Counterexample for C3: in the scheduled variant (`lambda_function.py`),
a record with the unknown policy `Parental` is skipped with zero update calls
but also with zero warnings — the `if policy_name in STATUS_MAP:` at line 123
has no `else`, so no warning is emitted for it, contradicting the claim that
a warning is emitted in both entry-point variants. -/
theorem c3_counterexample :
    LambdaFunction.update_slack_status_for_time_off_users envUnknown =
      .ok RunLog.empty ∧
    RunLog.empty.warnings.length = 0 :=
  ⟨rfl, rfl⟩

/-- C3 (amended): a record whose string policy is not a `STATUS_MAP` key
yields zero lookups and zero update calls and processing continues with the
remaining records in both variants; a warning for it is emitted only in the
standalone variant (`main.py`), while the scheduled variant skips it
silently. -/
theorem c3_unknown_policy_skip (env : Env) (r : LambdaFunction.TimeOffRecord)
    (rm : MainScript.TimeOffRecord) (s : String)
    (rs : List LambdaFunction.TimeOffRecord)
    (rsm : List MainScript.TimeOffRecord)
    (hr : r.policy_name = PolicyVal.str s)
    (hrm : rm.policy_name = PolicyVal.str s)
    (hmap : statusMapGet s = none)
    (he : ∃ t, computeExpiration r.«end» = .ok t)
    (hem : ∃ t, computeExpiration rm.«end» = .ok t) :
    LambdaFunction.processRecord env r = .ok RunLog.empty ∧
    MainScript.processRecord env rm =
      .ok ⟨[], [], [Warning.unknownPolicy rm.email s], 0⟩ ∧
    LambdaFunction.runRecords env (r :: rs) = LambdaFunction.runRecords env rs ∧
    MainScript.runRecords env (rm :: rsm) =
      prependLog ⟨[], [], [Warning.unknownPolicy rm.email s], 0⟩
        (MainScript.runRecords env rsm) := by
  obtain ⟨t, ht⟩ := he
  obtain ⟨tm, htm⟩ := hem
  have h1 : LambdaFunction.processRecord env r = .ok RunLog.empty := by
    simp [LambdaFunction.processRecord, ht, hr, hmap, RunLog.empty]
  have h2 : MainScript.processRecord env rm =
      .ok ⟨[], [], [Warning.unknownPolicy rm.email s], 0⟩ := by
    simp [MainScript.processRecord, htm, hrm, hmap]
  refine ⟨h1, h2, ?_, ?_⟩
  · simp [LambdaFunction.runRecords, h1, prependLog_empty]
  · simp [MainScript.runRecords, h2]

/-- Witness for the amended C3 at a concrete record and environment. -/
theorem c3_unknown_policy_skip_witness :
    LambdaFunction.processRecord envUnknown lfUnknownRecord = .ok RunLog.empty ∧
    MainScript.processRecord envUnknown msUnknownRecord =
      .ok ⟨[], [], [Warning.unknownPolicy msUnknownRecord.email "Parental"], 0⟩ ∧
    LambdaFunction.runRecords envUnknown (lfUnknownRecord :: []) =
      LambdaFunction.runRecords envUnknown [] ∧
    MainScript.runRecords envUnknown (msUnknownRecord :: []) =
      prependLog ⟨[], [], [Warning.unknownPolicy msUnknownRecord.email "Parental"], 0⟩
        (MainScript.runRecords envUnknown []) :=
  c3_unknown_policy_skip envUnknown lfUnknownRecord msUnknownRecord "Parental"
    [] [] rfl rfl (by decide) ⟨0, rfl⟩ ⟨0, rfl⟩

/-- Counterexample for C4: in the scheduled variant, a known-policy record
whose email does not resolve produces two warnings (one from
`get_slack_user_id` at line 94 and one from the orchestrator's skip at line
130), contradicting the claim of exactly one warning in both variants. -/
theorem c4_counterexample :
    LambdaFunction.processRecord envLookupFail lfVacRecord =
      .ok ⟨[some "ada@example.com"], [],
           [Warning.lookupFailed (some "ada@example.com"),
            Warning.skipNoUserId (some "ada@example.com")], 0⟩ ∧
    (⟨[some "ada@example.com"], [],
      [Warning.lookupFailed (some "ada@example.com"),
       Warning.skipNoUserId (some "ada@example.com")], 0⟩ : RunLog).warnings.length = 2 :=
  ⟨rfl, rfl⟩

/-- C4 (amended): a record whose policy is in the table but whose email does
not resolve (lookup response not ok) yields zero update calls and processing
continues in both variants; exactly one warning is recorded in the standalone
variant and exactly two in the scheduled variant. -/
theorem c4_unresolved_email_skip (env : Env) (r : LambdaFunction.TimeOffRecord)
    (rm : MainScript.TimeOffRecord) (s : String)
    (rs : List LambdaFunction.TimeOffRecord)
    (rsm : List MainScript.TimeOffRecord)
    (hr : r.policy_name = PolicyVal.str s)
    (hrm : rm.policy_name = PolicyVal.str s)
    (hmap : (statusMapGet s).isSome = true)
    (hok : (env.slackLookup r.email).ok = false)
    (hokm : (env.slackLookup rm.email).ok = false)
    (he : ∃ t, computeExpiration r.«end» = .ok t)
    (hem : ∃ t, computeExpiration rm.«end» = .ok t) :
    LambdaFunction.processRecord env r =
      .ok ⟨[r.email], [],
           [Warning.lookupFailed r.email, Warning.skipNoUserId r.email], 0⟩ ∧
    MainScript.processRecord env rm =
      .ok ⟨[rm.email], [], [Warning.lookupFailed rm.email], 0⟩ ∧
    LambdaFunction.runRecords env (r :: rs) =
      prependLog ⟨[r.email], [],
        [Warning.lookupFailed r.email, Warning.skipNoUserId r.email], 0⟩
        (LambdaFunction.runRecords env rs) ∧
    MainScript.runRecords env (rm :: rsm) =
      prependLog ⟨[rm.email], [], [Warning.lookupFailed rm.email], 0⟩
        (MainScript.runRecords env rsm) := by
  obtain ⟨t, ht⟩ := he
  obtain ⟨tm, htm⟩ := hem
  obtain ⟨⟨text, emoji⟩, hm⟩ := Option.isSome_iff_exists.mp hmap
  have h1 : LambdaFunction.processRecord env r =
      .ok ⟨[r.email], [],
           [Warning.lookupFailed r.email, Warning.skipNoUserId r.email], 0⟩ := by
    simp [LambdaFunction.processRecord, ht, hr, hm, get_slack_user_id, hok]
  have h2 : MainScript.processRecord env rm =
      .ok ⟨[rm.email], [], [Warning.lookupFailed rm.email], 0⟩ := by
    simp [MainScript.processRecord, htm, hrm, hm, get_slack_user_id, hokm]
  refine ⟨h1, h2, ?_, ?_⟩
  · simp [LambdaFunction.runRecords, h1]
  · simp [MainScript.runRecords, h2]

/-- Witness for the amended C4 at a concrete record and environment. -/
theorem c4_unresolved_email_skip_witness :
    LambdaFunction.processRecord envLookupFail lfVacRecord =
      .ok ⟨[lfVacRecord.email], [],
           [Warning.lookupFailed lfVacRecord.email,
            Warning.skipNoUserId lfVacRecord.email], 0⟩ ∧
    MainScript.processRecord envLookupFail msVacRecord =
      .ok ⟨[msVacRecord.email], [], [Warning.lookupFailed msVacRecord.email], 0⟩ ∧
    LambdaFunction.runRecords envLookupFail (lfVacRecord :: []) =
      prependLog ⟨[lfVacRecord.email], [],
        [Warning.lookupFailed lfVacRecord.email,
         Warning.skipNoUserId lfVacRecord.email], 0⟩
        (LambdaFunction.runRecords envLookupFail []) ∧
    MainScript.runRecords envLookupFail (msVacRecord :: []) =
      prependLog ⟨[msVacRecord.email], [],
        [Warning.lookupFailed msVacRecord.email], 0⟩
        (MainScript.runRecords envLookupFail []) :=
  c4_unresolved_email_skip envLookupFail lfVacRecord msVacRecord "Vacations"
    [] [] rfl rfl rfl rfl rfl ⟨0, rfl⟩ ⟨0, rfl⟩

/-- Counterexample for C2: when the time-off service returns a record whose
end timestamp is not a valid ISO-8601 string, `datetime.fromisoformat`
raises `ValueError`, the run does not complete, and `lambda_handler` does
not return the success envelope — refuting completion "regardless of the
responses returned by the external services". -/
theorem c2_counterexample :
    LambdaFunction.lambda_handler envBadEnd =
      .error (RunLog.empty, PyError.valueError) ∧
    LambdaFunction.update_slack_status_for_time_off_users envBadEnd =
      .error (RunLog.empty, PyError.valueError) ∧
    MainScript.update_slack_status_for_time_off_users envBadEnd =
      .error (RunLog.empty, PyError.valueError) :=
  ⟨rfl, rfl, rfl⟩

/-- C2 (amended): provided the per-record data is well-formed — every fetched
request object has a `policyName`, its end timestamp (when present) parses,
and every `ok` lookup response carries a user object — the run completes
without raising in both variants, whatever the lookup outcomes and
profile-set responses are, and `lambda_handler` returns the fixed envelope
with statusCode 200 and the fixed success message. -/
theorem c2_completion_under_wellformed (env : Env)
    (hwf : wellFormedUpstream env) :
    (∃ log, LambdaFunction.update_slack_status_for_time_off_users env = .ok log) ∧
    LambdaFunction.lambda_handler env =
      .ok ⟨200, "Lambda function completed successfully!"⟩ ∧
    (∃ log, MainScript.update_slack_status_for_time_off_users env = .ok log) := by
  by_cases h200 : env.clockify.status_code = 200
  · have hL : LambdaFunction.get_time_off_requests env.clockify =
        env.clockify.requests.map LambdaFunction.recordOfRequest := by
      simp [LambdaFunction.get_time_off_requests, h200]
    have hM : MainScript.get_time_off_requests env.clockify =
        env.clockify.requests.map MainScript.recordOfRequest := by
      simp [MainScript.get_time_off_requests, h200]
    obtain ⟨log1, h1⟩ := lfRunRecords_ok env env.clockify.requests hwf
    obtain ⟨log2, h2⟩ := msRunRecords_ok env env.clockify.requests hwf
    have hu1 : LambdaFunction.update_slack_status_for_time_off_users env =
        .ok log1 := by
      rw [LambdaFunction.update_slack_status_for_time_off_users, hL]
      exact h1
    have hu2 : MainScript.update_slack_status_for_time_off_users env =
        .ok log2 := by
      rw [MainScript.update_slack_status_for_time_off_users, hM]
      exact h2
    exact ⟨⟨log1, hu1⟩, by simp [LambdaFunction.lambda_handler, hu1], ⟨log2, hu2⟩⟩
  · have hL : LambdaFunction.get_time_off_requests env.clockify = [] := by
      simp [LambdaFunction.get_time_off_requests, h200]
    have hM : MainScript.get_time_off_requests env.clockify = [] := by
      simp [MainScript.get_time_off_requests, h200]
    have hu1 : LambdaFunction.update_slack_status_for_time_off_users env =
        .ok RunLog.empty := by
      simp [LambdaFunction.update_slack_status_for_time_off_users, hL,
            LambdaFunction.runRecords]
    have hu2 : MainScript.update_slack_status_for_time_off_users env =
        .ok RunLog.empty := by
      simp [MainScript.update_slack_status_for_time_off_users, hM,
            MainScript.runRecords]
    exact ⟨⟨RunLog.empty, hu1⟩, by simp [LambdaFunction.lambda_handler, hu1],
           ⟨RunLog.empty, hu2⟩⟩

/-- Witness for the amended C2 at a concrete well-formed environment. -/
theorem c2_completion_under_wellformed_witness :
    (∃ log, LambdaFunction.update_slack_status_for_time_off_users envVac = .ok log) ∧
    LambdaFunction.lambda_handler envVac =
      .ok ⟨200, "Lambda function completed successfully!"⟩ ∧
    (∃ log, MainScript.update_slack_status_for_time_off_users envVac = .ok log) := by
  refine c2_completion_under_wellformed envVac ?_
  intro req hreq
  have hr : req = reqVac := by
    simpa [envVac] using hreq
  subst hr
  exact ⟨rfl, ⟨1748908799, by decide⟩, fun _ => rfl⟩

/-- C6: for any current UTC instant on calendar day 2025-06-02, the query
window built by the fetcher starts at that day's 00:00:00 UTC and ends at
23:59:59.999999 UTC, serialized in ISO-8601 (Python prints the UTC offset as
`+00:00`); the serialized endpoints denote exactly the instants
2025-06-02T00:00:00Z (epoch 1748822400) and 2025-06-02T23:59:59.999999Z
(epoch 1748908799 + 999999 microseconds). -/
theorem c6_window_computation (now : PyDateTime)
    (h : now.date = ⟨2025, 6, 2⟩) :
    START_DATE now.date = "2025-06-02T00:00:00+00:00" ∧
    END_DATE now.date = "2025-06-02T23:59:59.999999+00:00" ∧
    (timeOffQueryPayload now.date).start = "2025-06-02T00:00:00+00:00" ∧
    (timeOffQueryPayload now.date).«end» = "2025-06-02T23:59:59.999999+00:00" ∧
    fromisoformatEpochPair "2025-06-02T00:00:00+00:00" =
      fromisoformatEpochPair (pyStrReplace "2025-06-02T00:00:00Z" "Z" "+00:00") ∧
    fromisoformatEpochPair "2025-06-02T00:00:00+00:00" = .ok (1748822400, 0) ∧
    fromisoformatEpochPair "2025-06-02T23:59:59.999999+00:00" =
      fromisoformatEpochPair
        (pyStrReplace "2025-06-02T23:59:59.999999Z" "Z" "+00:00") ∧
    fromisoformatEpochPair "2025-06-02T23:59:59.999999+00:00" =
      .ok (1748908799, 999999) := by
  rw [h]
  exact ⟨by decide, by decide, by decide, by decide, by decide, by decide,
         by decide, by decide⟩

/-- Witness for C6 at the claim's example instant 2025-06-02T10:00:00Z. -/
theorem c6_window_computation_witness :
    START_DATE nowExample.date = "2025-06-02T00:00:00+00:00" ∧
    END_DATE nowExample.date = "2025-06-02T23:59:59.999999+00:00" ∧
    (timeOffQueryPayload nowExample.date).start = "2025-06-02T00:00:00+00:00" ∧
    (timeOffQueryPayload nowExample.date).«end» =
      "2025-06-02T23:59:59.999999+00:00" ∧
    fromisoformatEpochPair "2025-06-02T00:00:00+00:00" =
      fromisoformatEpochPair (pyStrReplace "2025-06-02T00:00:00Z" "Z" "+00:00") ∧
    fromisoformatEpochPair "2025-06-02T00:00:00+00:00" = .ok (1748822400, 0) ∧
    fromisoformatEpochPair "2025-06-02T23:59:59.999999+00:00" =
      fromisoformatEpochPair
        (pyStrReplace "2025-06-02T23:59:59.999999Z" "Z" "+00:00") ∧
    fromisoformatEpochPair "2025-06-02T23:59:59.999999+00:00" =
      .ok (1748908799, 999999) :=
  c6_window_computation nowExample rfl

/-- C8: on a 200 response, `get_time_off_requests` returns exactly one
normalized record per request object, in response order (the map is not
re-sorted), with email, name, start, end (and, in the standalone variant,
status) and policy taken from the corresponding response fields; an absent
end date stays absent (`none`), not defaulted. -/
theorem c8_normalized_records (resp : FetchResponse)
    (h : resp.status_code = 200) :
    LambdaFunction.get_time_off_requests resp =
      resp.requests.map LambdaFunction.recordOfRequest ∧
    MainScript.get_time_off_requests resp =
      resp.requests.map MainScript.recordOfRequest ∧
    (LambdaFunction.get_time_off_requests resp).length = resp.requests.length ∧
    (MainScript.get_time_off_requests resp).length = resp.requests.length ∧
    (∀ req : RawRequest,
      (LambdaFunction.recordOfRequest req).email = req.userEmail ∧
      (LambdaFunction.recordOfRequest req).name = req.userName ∧
      (LambdaFunction.recordOfRequest req).start = periodStartOf req ∧
      (LambdaFunction.recordOfRequest req).«end» = periodEndOf req ∧
      (∀ s, req.policyName = some s →
        (LambdaFunction.recordOfRequest req).policy_name = PolicyVal.str s) ∧
      (periodEndOf req = none →
        (LambdaFunction.recordOfRequest req).«end» = none)) ∧
    (∀ req : RawRequest,
      (MainScript.recordOfRequest req).email = req.userEmail ∧
      (MainScript.recordOfRequest req).name = req.userName ∧
      (MainScript.recordOfRequest req).start = periodStartOf req ∧
      (MainScript.recordOfRequest req).«end» = periodEndOf req ∧
      (MainScript.recordOfRequest req).status = statusTypeOf req ∧
      (∀ s, req.policyName = some s →
        (MainScript.recordOfRequest req).policy_name = PolicyVal.str s) ∧
      (periodEndOf req = none →
        (MainScript.recordOfRequest req).«end» = none)) := by
  have hL : LambdaFunction.get_time_off_requests resp =
      resp.requests.map LambdaFunction.recordOfRequest := by
    simp [LambdaFunction.get_time_off_requests, h]
  have hM : MainScript.get_time_off_requests resp =
      resp.requests.map MainScript.recordOfRequest := by
    simp [MainScript.get_time_off_requests, h]
  refine ⟨hL, hM, by rw [hL]; simp, by rw [hM]; simp, ?_, ?_⟩
  · intro req
    refine ⟨rfl, rfl, rfl, rfl, ?_, ?_⟩
    · intro s hs
      simp [LambdaFunction.recordOfRequest, policyNameOf, hs]
    · intro hend
      exact hend
  · intro req
    refine ⟨rfl, rfl, rfl, rfl, rfl, ?_, ?_⟩
    · intro s hs
      simp [MainScript.recordOfRequest, policyNameOf, hs]
    · intro hend
      exact hend

/-- Witness for C8 at a concrete 200 response with one request whose end
date is absent. -/
theorem c8_normalized_records_witness :
    LambdaFunction.get_time_off_requests respOneOpenEnd =
      respOneOpenEnd.requests.map LambdaFunction.recordOfRequest ∧
    MainScript.get_time_off_requests respOneOpenEnd =
      respOneOpenEnd.requests.map MainScript.recordOfRequest ∧
    (LambdaFunction.get_time_off_requests respOneOpenEnd).length =
      respOneOpenEnd.requests.length ∧
    (MainScript.get_time_off_requests respOneOpenEnd).length =
      respOneOpenEnd.requests.length ∧
    (∀ req : RawRequest,
      (LambdaFunction.recordOfRequest req).email = req.userEmail ∧
      (LambdaFunction.recordOfRequest req).name = req.userName ∧
      (LambdaFunction.recordOfRequest req).start = periodStartOf req ∧
      (LambdaFunction.recordOfRequest req).«end» = periodEndOf req ∧
      (∀ s, req.policyName = some s →
        (LambdaFunction.recordOfRequest req).policy_name = PolicyVal.str s) ∧
      (periodEndOf req = none →
        (LambdaFunction.recordOfRequest req).«end» = none)) ∧
    (∀ req : RawRequest,
      (MainScript.recordOfRequest req).email = req.userEmail ∧
      (MainScript.recordOfRequest req).name = req.userName ∧
      (MainScript.recordOfRequest req).start = periodStartOf req ∧
      (MainScript.recordOfRequest req).«end» = periodEndOf req ∧
      (MainScript.recordOfRequest req).status = statusTypeOf req ∧
      (∀ s, req.policyName = some s →
        (MainScript.recordOfRequest req).policy_name = PolicyVal.str s) ∧
      (periodEndOf req = none →
        (MainScript.recordOfRequest req).«end» = none)) :=
  c8_normalized_records respOneOpenEnd rfl

/-- C10: a fetched request object with no `policyName` key is normalized with
`policy_name = {}` (the empty dict), and it indeed never yields a status
update; but it does not flow into the unknown-policy skip branch — the
membership test `policy_name in STATUS_MAP` hashes the dict and raises
`TypeError`, aborting the run in both variants (with no update having been
issued), contrary to the claim and to the spec's skip-with-warning /
no-fatal-error design. -/
theorem c10_missing_policy_raises :
    policyNameOf reqNoPolicy = PolicyVal.emptyDict ∧
    (LambdaFunction.recordOfRequest reqNoPolicy).policy_name =
      PolicyVal.emptyDict ∧
    LambdaFunction.update_slack_status_for_time_off_users envNoPolicy =
      .error (RunLog.empty, PyError.typeError) ∧
    MainScript.update_slack_status_for_time_off_users envNoPolicy =
      .error (RunLog.empty, PyError.typeError) ∧
    RunLog.empty.updates = [] :=
  ⟨rfl, rfl, rfl, rfl, rfl⟩
